import Mathlib

/-!
Shallow embedding of the autoapi repository (src/autoapi.py, src/trinoautoapi.py).

The two classes `AutoApi` and `TrinoAutoApi` share their column-type mapping,
pydantic-model synthesis, endpoint-config generation and request handler almost
verbatim; the embedding below models that shared logic once, and models the one
point where they differ (the route string built in
`__generate_endpoint_configs`) as two separate route constructors.

Database listing calls (`get_database_names` / `get_catalog_names`,
`get_schema_names`, `get_tables`, `get_columns`) are I/O against a data source;
they are modelled as `Except`-valued fields of a hierarchy of nodes: each node
carries either the list the data source reported or the error the listing call
raised.  Python exceptions are modelled with `Except`; a `try/except` block that
logs and continues is modelled by matching on the `Except` and dropping the
error branch.
-/

/-- API scalar types: the closed set of pydantic field types the generator
emits (`Optional[str] / Optional[float] / Optional[int] / Optional[bool]`). -/
inductive ApiType where
  | string
  | float
  | integer
  | boolean
deriving DecidableEq

/-- A native SQL column type as seen through `sqlalchemy.types`: the
`isinstance` checks in `pydantic_from_table` test membership in the
`String` / `Float` / `Integer` / `Boolean` families; every other type falls
through to the `raise`.  The carried string is the type's textual form (used
only in the error message). -/
inductive NativeType where
  | string (desc : String)
  | float (desc : String)
  | integer (desc : String)
  | boolean (desc : String)
  | other (desc : String)
deriving DecidableEq

/-- The API type a native type family maps to, `none` when unsupported.  This
mirrors the `isinstance` bucketing of `pydantic_from_table`
(src/autoapi.py lines 143-152, src/trinoautoapi.py lines 137-146). -/
def NativeType.family : NativeType → Option ApiType
  | .string _ => some .string
  | .float _ => some .float
  | .integer _ => some .integer
  | .boolean _ => some .boolean
  | .other _ => none

/-- One element of the list returned by `inspector.get_columns`: the code reads
`col["name"]` and `col["type"]`; the introspection dict also carries
`nullable` and `default` keys, which `pydantic_from_table` never reads. -/
structure ColumnDescriptor where
  name : String
  type : NativeType
  nullable : Bool
  hasDefault : Bool
deriving DecidableEq

/-- Errors raised during discovery.  `unsupportedColumnType` is the
`raise Exception(f"No handler for column {col_name} with type {col_type}")` of
`pydantic_from_table`; `metadataUnavailable` stands for any exception raised by
a listing call against the data source. -/
inductive AutoApiError where
  | unsupportedColumnType (colName : String) (colType : NativeType)
  | metadataUnavailable (context : String)
deriving DecidableEq

/-- One entry of the `model_dict` handed to `pydantic.create_model`: every
entry the code creates is `(Optional[T], ...)`, i.e. the annotation is wrapped
in `Optional` (`optionalType`) and the default is Ellipsis, which makes the
field required (`required`). -/
structure PydanticField where
  name : String
  type : ApiType
  optionalType : Bool
  required : Bool
deriving DecidableEq

/-- The pydantic model produced by `create_model(model_name, **model_dict)`:
its name and its ordered field list (Python dicts preserve insertion order). -/
structure PydanticModel where
  name : String
  fields : List PydanticField
deriving DecidableEq

/-- `model_dict[col_name] = ...` on a Python dict: an existing key keeps its
position and gets the new value, a new key is appended. -/
def dictInsert (d : List PydanticField) (f : PydanticField) : List PydanticField :=
  if d.any (fun g => g.name == f.name) then
    d.map (fun g => if g.name == f.name then f else g)
  else
    d ++ [f]

/-- The body of the `for col in columns` loop of `pydantic_from_table`:
bucket the column's type by `isinstance` and build the `(Optional[T], ...)`
entry, or raise for an unsupported type. -/
def mapColumn (col : ColumnDescriptor) : Except AutoApiError PydanticField :=
  match col.type with
  | .string _ => .ok ⟨col.name, .string, true, true⟩
  | .float _ => .ok ⟨col.name, .float, true, true⟩
  | .integer _ => .ok ⟨col.name, .integer, true, true⟩
  | .boolean _ => .ok ⟨col.name, .boolean, true, true⟩
  | .other _ => .error (.unsupportedColumnType col.name col.type)

/-- The `for col in columns` loop of `pydantic_from_table`: fold the columns
into `model_dict`, stopping at the first unsupported column. -/
def buildModelDict : List ColumnDescriptor → List PydanticField →
    Except AutoApiError (List PydanticField)
  | [], acc => .ok acc
  | c :: cs, acc =>
    match mapColumn c with
    | .ok f => buildModelDict cs (dictInsert acc f)
    | .error e => .error e

/-- `pydantic_from_table` (src/autoapi.py lines 132-158, src/trinoautoapi.py
lines 125-152): fetch the columns (`get_columns`, whose failure propagates
here), build `model_dict`, and create the model named
`f"{schema}_{table}"`. -/
def pydantic_from_table (columnsListing : Except AutoApiError (List ColumnDescriptor))
    (schema table : String) : Except AutoApiError PydanticModel :=
  match columnsListing with
  | .error e => .error e
  | .ok columns =>
    match buildModelDict columns [] with
    | .error e => .error e
    | .ok fields => .ok ⟨schema ++ "_" ++ table, fields⟩

/-- The `EndpointConfig` container (route string plus pydantic model; the
SQLAlchemy URI carried alongside does not affect any claim). -/
structure EndpointConfig where
  route : String
  pydantic_model : PydanticModel
deriving DecidableEq

/-- Route built by `TrinoAutoApi.__generate_endpoint_configs`
(src/trinoautoapi.py line 170): `f"/{catalog}/{schema}/{table}"`. -/
def trinoRoute (catalog schema table : String) : String :=
  "/" ++ catalog ++ "/" ++ schema ++ "/" ++ table

/-- Route built by `AutoApi.__generate_endpoint_configs`
(src/autoapi.py line 178): `f"/{uri.host}/{database}/{schema}/{table}"` —
note the host segment in front of the database segment. -/
def autoApiRoute (host database schema table : String) : String :=
  "/" ++ host ++ "/" ++ database ++ "/" ++ schema ++ "/" ++ table

/-- Split a character list at slashes, accumulating the current (reversed)
segment. -/
def splitSegsAux : List Char → List Char → List String
  | [], acc => [String.mk acc.reverse]
  | c :: rest, acc =>
    if c = '/' then String.mk acc.reverse :: splitSegsAux rest []
    else splitSegsAux rest (c :: acc)

/-- The path segments of a route: `route.strip("/").split("/")`, here as a
slash split that drops empty segments. -/
def routeSegments (r : String) : List String :=
  (splitSegsAux r.toList []).filter (fun s => s != "")

/-- Stated from the spec for comparison (not from the source): the claimed
route shape `/{catalog?}/{schema}/{table}` — the segments are exactly
catalog/schema/table, or exactly schema/table when the catalog is omitted. -/
def specRouteShape (catalog schema table : String) (r : String) : Prop :=
  routeSegments r = [catalog, schema, table] ∨ routeSegments r = [schema, table]

instance (catalog schema table r : String) :
    Decidable (specRouteShape catalog schema table r) := by
  unfold specRouteShape
  infer_instance

/-- A table node of the metadata hierarchy: its name and the outcome of the
`get_columns` listing for it. -/
structure TableNode where
  name : String
  columns : Except AutoApiError (List ColumnDescriptor)

/-- A schema node: its name and the outcome of `get_tables` for it. -/
structure SchemaNode where
  name : String
  tables : Except AutoApiError (List TableNode)

/-- A catalog node: its name and the outcome of `get_schema_names` for it. -/
structure CatalogNode where
  name : String
  schemas : Except AutoApiError (List SchemaNode)

/-- A data source: the outcome of `get_catalog_names` / `get_database_names`
(after the built-in exclusion lists are applied). -/
structure DataSource where
  catalogs : Except AutoApiError (List CatalogNode)

/-- The `try/except` body of the innermost loop of
`__generate_endpoint_configs` (src/trinoautoapi.py lines 166-176): synthesize
the model (this includes the `get_columns` call, so a column-listing failure is
caught too) and append one config, or log and skip the table. -/
def configsForTable (catalog schema : String) (t : TableNode) : List EndpointConfig :=
  match pydantic_from_table t.columns schema t.name with
  | .ok m => [⟨trinoRoute catalog schema t.name, m⟩]
  | .error _ => []

/-- The `for table in tables` loop: concatenate the per-table results in
order. -/
def configsForTables (catalog schema : String) : List TableNode → List EndpointConfig
  | [] => []
  | t :: ts => configsForTable catalog schema t ++ configsForTables catalog schema ts

/-- The body of the `for schema in schemas` loop: `get_tables` is called
outside any `try`, so its failure propagates out of the whole generation. -/
def configsForSchema (catalog : String) (s : SchemaNode) :
    Except AutoApiError (List EndpointConfig) :=
  match s.tables with
  | .error e => .error e
  | .ok ts => .ok (configsForTables catalog s.name ts)

/-- The `for schema in schemas` loop over a catalog's schemas. -/
def configsForSchemas (catalog : String) : List SchemaNode →
    Except AutoApiError (List EndpointConfig)
  | [] => .ok []
  | s :: ss =>
    match configsForSchema catalog s with
    | .error e => .error e
    | .ok cs =>
      match configsForSchemas catalog ss with
      | .error e => .error e
      | .ok rest => .ok (cs ++ rest)

/-- The body of the `for catalog in catalogs` loop: `get_schema_names` is
called outside any `try`, so its failure propagates. -/
def configsForCatalog (c : CatalogNode) : Except AutoApiError (List EndpointConfig) :=
  match c.schemas with
  | .error e => .error e
  | .ok ss => configsForSchemas c.name ss

/-- The `for catalog in catalogs` loop. -/
def configsForCatalogs : List CatalogNode → Except AutoApiError (List EndpointConfig)
  | [] => .ok []
  | c :: cs =>
    match configsForCatalog c with
    | .error e => .error e
    | .ok here =>
      match configsForCatalogs cs with
      | .error e => .error e
      | .ok rest => .ok (here ++ rest)

/-- `__generate_endpoint_configs` (src/trinoautoapi.py lines 154-178,
src/autoapi.py lines 160-187): walk catalogs, schemas, tables; only the
per-table synthesis is wrapped in `try/except`. -/
def generateEndpointConfigs (ds : DataSource) : Except AutoApiError (List EndpointConfig) :=
  match ds.catalogs with
  | .error e => .error e
  | .ok cs => configsForCatalogs cs

/-- Projection of an `Except` to its success value, for decidable statements
about concrete runs. -/
def okValue {ε α : Type} : Except ε α → Option α
  | .ok a => some a
  | .error _ => none

/-- `cursor.fetchmany(size)`: return at most `size` of the remaining rows;
a non-positive `size` yields no rows. -/
def fetchmany {α : Type} (rows : List α) (size : Int) : List α :=
  rows.take size.toNat

/-- The request handler `auto_api_function(limit: Optional[int] = 10)`
(src/autoapi.py lines 211-231, src/trinoautoapi.py lines 202-225): an omitted
limit gets the parameter default 10, an explicit null gets 10 via the
`if limit is None` check, and any supplied integer is passed to `fetchmany`
unchanged.  `rows` is the full result set of `select(table)`. -/
def auto_api_function {α : Type} (rows : List α) (limit : Option Int) : List α :=
  let lim : Int := match limit with
    | none => 10
    | some l => l
  fetchmany rows lim

/-- The `HTTPMethod` enum: only `GET` is defined (the other members are
commented out in the source). -/
inductive HTTPMethod where
  | GET
deriving DecidableEq

/-- `HTTPMethod.GET.value`. -/
def HTTPMethod.value : HTTPMethod → String
  | .GET => "GET"

/-- `HTTPMethod.get_values()`: the values of all members, i.e. `["GET"]`. -/
def HTTPMethod.get_values : List String :=
  [HTTPMethod.value .GET]

/-- ASCII upper-casing of one character, as Python's `str.upper` acts on the
method names used here. -/
def charUpper (c : Char) : Char :=
  if 'a' ≤ c ∧ c ≤ 'z' then Char.ofNat (c.toNat - 32) else c

/-- `http_method.upper()` for ASCII method names. -/
def strUpper (s : String) : String :=
  String.mk (s.toList.map charUpper)

/-- `generate_api_path_function` (src/autoapi.py lines 189-233,
src/trinoautoapi.py lines 180-227): when `http_method.upper()` equals
`HTTPMethod.GET.value`, register the route and the trailing-slash route on the
router and return the handler (modelled by its bound config); otherwise fall
through and return `None`, registering nothing.  The second component is the
list of paths registered on the router. -/
def generate_api_path_function (cfg : EndpointConfig) (http_method : String) :
    Option EndpointConfig × List String :=
  if strUpper http_method == HTTPMethod.value .GET then
    (some cfg, [cfg.route, cfg.route ++ "/"])
  else
    (none, [])

/-- The `for method in http_methods` loop of `generate_api_path_functions`:
a method outside `HTTPMethod.get_values()` is skipped with a logged error;
otherwise the path function is created and appended. -/
def registerMethods (cfg : EndpointConfig) :
    List String → List (Option EndpointConfig) × List String →
    List (Option EndpointConfig) × List String
  | [], acc => acc
  | m :: ms, acc =>
    if HTTPMethod.get_values.contains m then
      let fr := generate_api_path_function cfg m
      registerMethods cfg ms (acc.1 ++ [fr.1], acc.2 ++ fr.2)
    else
      registerMethods cfg ms acc

/-- The `for cfg in endpoint_configs` loop of `generate_api_path_functions`. -/
def registerConfigs : List EndpointConfig → List String →
    List (Option EndpointConfig) × List String →
    List (Option EndpointConfig) × List String
  | [], _, acc => acc
  | cfg :: cfgs, ms, acc => registerConfigs cfgs ms (registerMethods cfg ms acc)

/-- `generate_api_path_functions` (src/autoapi.py lines 235-257,
src/trinoautoapi.py lines 229-251): returns the accumulated path functions and
the accumulated registered router paths. -/
def generate_api_path_functions (cfgs : List EndpointConfig) (http_methods : List String) :
    List (Option EndpointConfig) × List String :=
  registerConfigs cfgs http_methods ([], [])

instance {ε α : Type} [DecidableEq ε] [DecidableEq α] : DecidableEq (Except ε α) := fun a b =>
  match a, b with
  | .ok x, .ok y =>
    if h : x = y then .isTrue (by rw [h]) else .isFalse (fun hh => by cases hh; exact h rfl)
  | .error x, .error y =>
    if h : x = y then .isTrue (by rw [h]) else .isFalse (fun hh => by cases hh; exact h rfl)
  | .ok _, .error _ => .isFalse (fun hh => by cases hh)
  | .error _, .ok _ => .isFalse (fun hh => by cases hh)

example : mapColumn ⟨"id", .integer "INTEGER", false, false⟩ =
    .ok ⟨"id", .integer, true, true⟩ := by decide

example : pydantic_from_table (.ok [⟨"id", .integer "INTEGER", false, false⟩]) "s" "t" =
    .ok ⟨"s_t", [⟨"id", .integer, true, true⟩]⟩ := by decide

example : auto_api_function [1, 2, 3] (some 0) = ([] : List Nat) := by decide

/-- Claim C1: for every column descriptor whose native type is in the
supported set, the type mapper returns the documented API type (string-family
to String, floating-point-family to Float, integer-family to Integer, boolean
to Boolean); for every column descriptor with any other native type it fails
with `UnsupportedColumnType`, carrying the column name and native type, and
never returns a value. -/
theorem map_type_totality (col : ColumnDescriptor) :
    (∀ a, col.type.family = some a → mapColumn col = .ok ⟨col.name, a, true, true⟩) ∧
    (col.type.family = none →
      mapColumn col = .error (.unsupportedColumnType col.name col.type)) := by
  obtain ⟨n, t, nl, df⟩ := col
  cases t <;> simp [mapColumn, NativeType.family]

/-- Witness for `map_type_totality`: a varchar column maps to String, a jsonb
column fails with `UnsupportedColumnType` carrying its name and type. -/
theorem map_type_totality_witness :
    mapColumn ⟨"name", NativeType.string "VARCHAR", true, false⟩ =
      .ok ⟨"name", ApiType.string, true, true⟩ ∧
    mapColumn ⟨"payload", NativeType.other "JSONB", false, false⟩ =
      .error (.unsupportedColumnType "payload" (NativeType.other "JSONB")) :=
  ⟨(map_type_totality ⟨"name", NativeType.string "VARCHAR", true, false⟩).1 ApiType.string rfl,
   (map_type_totality ⟨"payload", NativeType.other "JSONB", false, false⟩).2 rfl⟩

/-- Claim C2 counterexample: against a table with 10 rows, a request with the
non-positive limit 0 returns 0 rows, not the 10 rows the claimed default would
produce — the handler only substitutes the default when the limit is absent. -/
theorem limit_nonpositive_counterexample :
    auto_api_function (List.replicate 10 (0 : Nat)) (some 0) = [] ∧
    auto_api_function (List.replicate 10 (0 : Nat)) (some 0) ≠
      (List.replicate 10 (0 : Nat)).take 10 := by decide

/-- Claim C2 (amended): if the limit is omitted the handler uses the default
limit of 10; a supplied limit is used as-is (so a non-positive limit yields no
rows rather than the default), the handler returns at most `limit` rows, and
exactly `limit` rows when the table has at least that many. -/
theorem limit_bound {α : Type} (rows : List α) (n : Int) :
    auto_api_function rows none = rows.take 10 ∧
    (auto_api_function rows (some n)).length ≤ n.toNat ∧
    (n.toNat ≤ rows.length → (auto_api_function rows (some n)).length = n.toNat) := by
  refine ⟨rfl, ?_, fun h => ?_⟩
  · simp [auto_api_function, fetchmany]
  · simp [auto_api_function, fetchmany]
    omega

/-- Witness for `limit_bound`: with 3 rows, an omitted limit returns all 3
rows and limit 2 returns exactly 2 rows. -/
theorem limit_bound_witness :
    auto_api_function [1, 2, 3] (none : Option Int) = [1, 2, 3] ∧
    (auto_api_function [1, 2, 3] (some 2)).length = 2 := by
  have h := limit_bound [1, 2, 3] (2 : Int)
  exact ⟨h.1.trans (by decide), (h.2.2 (by decide)).trans (by decide)⟩

/-- Claim C3 counterexample: a nullable column with no server-side default
should synthesize a non-required field according to the claim, but the
generator marks every field required (the Ellipsis default). -/
theorem required_field_counterexample :
    (okValue (mapColumn ⟨"x", NativeType.integer "INTEGER", true, false⟩)).map
        PydanticField.required = some true ∧
    (okValue (mapColumn ⟨"x", NativeType.integer "INTEGER", true, false⟩)).map
        PydanticField.required ≠ some false := by decide

/-- Claim C3 (amended): every synthesized field is required (Ellipsis default)
and its annotation is Optional, regardless of the column's nullability or
server-side default — the generator never reads those introspection keys. -/
theorem fields_always_required_and_optional (col : ColumnDescriptor) (f : PydanticField)
    (h : mapColumn col = .ok f) : f.required = true ∧ f.optionalType = true := by
  obtain ⟨n, t, nl, df⟩ := col
  cases t <;> simp [mapColumn] at h <;> simp [← h]

/-- Witness for `fields_always_required_and_optional` at a nullable integer
column. -/
theorem fields_always_required_and_optional_witness :
    (⟨"x", ApiType.integer, true, true⟩ : PydanticField).required = true ∧
    (⟨"x", ApiType.integer, true, true⟩ : PydanticField).optionalType = true :=
  fields_always_required_and_optional ⟨"x", NativeType.integer "INTEGER", true, false⟩ _ rfl

/-- Helper: if any column of the list has an unsupported type, the model-dict
loop raises (regardless of the accumulator state). -/
theorem buildModelDict_mem_unsupported (cols : List ColumnDescriptor) :
    ∀ (acc : List PydanticField) (c : ColumnDescriptor),
      c ∈ cols → c.type.family = none →
      okValue (buildModelDict cols acc) = none := by
  induction cols with
  | nil => intro acc c hc _; simp at hc
  | cons c' cs ih =>
    intro acc c hc hf
    rcases List.mem_cons.mp hc with h | h
    · subst h
      have hm : mapColumn c = .error (.unsupportedColumnType c.name c.type) := by
        obtain ⟨n, t, nl, df⟩ := c
        cases t <;> simp_all [mapColumn, NativeType.family]
      simp [buildModelDict, hm, okValue]
    · cases hm : mapColumn c' with
      | ok f => simpa [buildModelDict, hm] using ih (dictInsert acc f) c h hf
      | error e => simp [buildModelDict, hm, okValue]

/-- Claim C5: for any schema whose table listing succeeded, the registry build
returns the concatenation of every table's contribution (so it never raises
because of a bad table), a table whose synthesis fails contributes zero
endpoints, and every sibling table whose synthesis succeeds contributes its
endpoint. -/
theorem skip_isolation (catalog : String) (s : SchemaNode) (ts : List TableNode)
    (h : s.tables = .ok ts) :
    configsForSchema catalog s = .ok (configsForTables catalog s.name ts) ∧
    (∀ t, okValue (pydantic_from_table t.columns s.name t.name) = none →
      configsForTable catalog s.name t = []) ∧
    (∀ t m, pydantic_from_table t.columns s.name t.name = .ok m →
      configsForTable catalog s.name t = [⟨trinoRoute catalog s.name t.name, m⟩]) := by
  refine ⟨by simp [configsForSchema, h], ?_, ?_⟩
  · intro t ht
    cases hp : pydantic_from_table t.columns s.name t.name with
    | ok m => rw [hp] at ht; simp [okValue] at ht
    | error e => simp [configsForTable, hp]
  · intro t m hm
    simp [configsForTable, hm]

/-- Witness for `skip_isolation`: a schema with a good table, a table whose
only column is unsupported, and another good table yields exactly the two good
endpoints; the bad table contributes none. -/
theorem skip_isolation_witness :
    configsForSchema "analytics"
        ⟨"public", .ok [
          ⟨"users", .ok [⟨"id", NativeType.integer "INTEGER", false, false⟩]⟩,
          ⟨"logs", .ok [⟨"payload", NativeType.other "JSONB", false, false⟩]⟩,
          ⟨"orders", .ok [⟨"total", NativeType.float "DOUBLE", true, false⟩]⟩]⟩ =
      .ok [⟨"/analytics/public/users", ⟨"public_users", [⟨"id", ApiType.integer, true, true⟩]⟩⟩,
           ⟨"/analytics/public/orders", ⟨"public_orders", [⟨"total", ApiType.float, true, true⟩]⟩⟩] ∧
    configsForTable "analytics" "public"
        ⟨"logs", .ok [⟨"payload", NativeType.other "JSONB", false, false⟩]⟩ = [] := by
  have h := skip_isolation "analytics"
    ⟨"public", .ok [
      ⟨"users", .ok [⟨"id", NativeType.integer "INTEGER", false, false⟩]⟩,
      ⟨"logs", .ok [⟨"payload", NativeType.other "JSONB", false, false⟩]⟩,
      ⟨"orders", .ok [⟨"total", NativeType.float "DOUBLE", true, false⟩]⟩]⟩
    [⟨"users", .ok [⟨"id", NativeType.integer "INTEGER", false, false⟩]⟩,
     ⟨"logs", .ok [⟨"payload", NativeType.other "JSONB", false, false⟩]⟩,
     ⟨"orders", .ok [⟨"total", NativeType.float "DOUBLE", true, false⟩]⟩] rfl
  exact ⟨h.1.trans (by decide),
    h.2.1 ⟨"logs", .ok [⟨"payload", NativeType.other "JSONB", false, false⟩]⟩ (by decide)⟩

/-- Claim C6 counterexample: a schema-listing failure for one catalog aborts
the whole build (no endpoint list is produced), even though the sibling
catalog on its own yields an endpoint — the failure is not contained to the
failing subtree. -/
theorem listing_failure_counterexample :
    okValue (generateEndpointConfigs ⟨.ok [
        ⟨"broken", .error (.metadataUnavailable "SHOW SCHEMAS failed")⟩,
        ⟨"healthy", .ok [⟨"s", .ok [⟨"t",
          .ok [⟨"id", NativeType.integer "INTEGER", false, false⟩]⟩]⟩]⟩]⟩) = none ∧
    okValue (configsForCatalog ⟨"healthy", .ok [⟨"s", .ok [⟨"t",
        .ok [⟨"id", NativeType.integer "INTEGER", false, false⟩]⟩]⟩]⟩) =
      some [⟨"/healthy/s/t", ⟨"s_t", [⟨"id", ApiType.integer, true, true⟩]⟩⟩] := by decide

/-- Claim C6 (amended): only a column-listing failure is non-fatal (the table
is skipped and traversal continues); a failing catalogs, schemas, or tables
listing propagates out of the build and aborts discovery for the rest of the
data source. -/
theorem listing_failure_policy :
    (∀ (catalog schema : String) (t : TableNode) (e : AutoApiError),
      t.columns = .error e → configsForTable catalog schema t = []) ∧
    (∀ (catalog : String) (s : SchemaNode) (e : AutoApiError),
      s.tables = .error e → configsForSchema catalog s = .error e) ∧
    (∀ (c : CatalogNode) (e : AutoApiError),
      c.schemas = .error e → configsForCatalog c = .error e) ∧
    (∀ (ds : DataSource) (e : AutoApiError),
      ds.catalogs = .error e → generateEndpointConfigs ds = .error e) := by
  refine ⟨?_, ?_, ?_, ?_⟩
  · intro catalog schema t e ht
    simp [configsForTable, pydantic_from_table, ht]
  · intro catalog s e hs
    simp [configsForSchema, hs]
  · intro c e hc
    simp [configsForCatalog, hc]
  · intro ds e hd
    simp [generateEndpointConfigs, hd]

/-- Witness for `listing_failure_policy` at concrete failing listings. -/
theorem listing_failure_policy_witness :
    configsForTable "c" "s" ⟨"t", .error (.metadataUnavailable "DESCRIBE failed")⟩ = [] ∧
    configsForSchema "c" ⟨"s", .error (.metadataUnavailable "SHOW TABLES failed")⟩ =
      .error (.metadataUnavailable "SHOW TABLES failed") ∧
    generateEndpointConfigs ⟨.error (.metadataUnavailable "SHOW CATALOGS failed")⟩ =
      .error (.metadataUnavailable "SHOW CATALOGS failed") := by
  have h := listing_failure_policy
  exact ⟨h.1 "c" "s" _ _ rfl, h.2.1 "c" _ _ rfl, h.2.2.2 _ _ rfl⟩

/-- Claim C7 counterexample: a table with zero columns (hence zero
representable columns) does not fail — synthesis returns a response schema
with zero fields and the table gets an endpoint. -/
theorem empty_table_schema_counterexample :
    pydantic_from_table (.ok []) "public" "empty_table" = .ok ⟨"public_empty_table", []⟩ ∧
    (⟨"public_empty_table", ([] : List PydanticField)⟩ : PydanticModel).fields.length = 0 ∧
    configsForTable "cat" "public" ⟨"empty_table", .ok []⟩ =
      [⟨trinoRoute "cat" "public" "empty_table", ⟨"public_empty_table", []⟩⟩] := by decide

/-- Claim C7 (amended): there is no EmptySchema check — a table with an empty
column list synthesizes a zero-field schema successfully, while a table
containing any unsupported column fails (with the unsupported-column error)
and is skipped. -/
theorem zero_representable_columns (s t : String) :
    pydantic_from_table (.ok []) s t = .ok ⟨s ++ "_" ++ t, []⟩ ∧
    (∀ cols c, c ∈ cols → c.type.family = none →
      okValue (pydantic_from_table (.ok cols) s t) = none) := by
  constructor
  · rfl
  · intro cols c hc hf
    have h := buildModelDict_mem_unsupported cols [] c hc hf
    cases hb : buildModelDict cols [] with
    | ok fs => rw [hb] at h; simp [okValue] at h
    | error e => simp [pydantic_from_table, hb, okValue]

/-- Witness for `zero_representable_columns`: an empty column list yields a
zero-field model; a single unsupported column yields a failure. -/
theorem zero_representable_columns_witness :
    pydantic_from_table (.ok []) "public" "t0" = .ok ⟨"public_t0", []⟩ ∧
    okValue (pydantic_from_table
      (.ok [⟨"payload", NativeType.other "JSONB", false, false⟩]) "public" "t0") = none := by
  have h := zero_representable_columns "public" "t0"
  refine ⟨h.1.trans (by decide), ?_⟩
  exact h.2 [⟨"payload", NativeType.other "JSONB", false, false⟩]
    ⟨"payload", NativeType.other "JSONB", false, false⟩ (by simp) rfl

/-- Claim C4 counterexample: the generic (SQLAlchemy-URI) variant builds the
route `/{host}/{database}/{schema}/{table}`: with host "dbhost", database
"mydb", schema "public", table "users" the route carries an extra host
segment, so its segments are neither `[catalog, schema, table]` (with the
database playing the catalog role) nor `[schema, table]`. -/
theorem route_shape_counterexample :
    autoApiRoute "dbhost" "mydb" "public" "users" = "/dbhost/mydb/public/users" ∧
    routeSegments (autoApiRoute "dbhost" "mydb" "public" "users") =
      ["dbhost", "mydb", "public", "users"] ∧
    ¬ specRouteShape "mydb" "public" "users"
        (autoApiRoute "dbhost" "mydb" "public" "users") := by decide

/-- Claim C4 (amended): the trino variant's endpoint routes follow exactly
`/{catalog}/{schema}/{table}` (every generated config's route concatenates
those discovered segments, and the catalog segment is never omitted), while
the generic variant prepends the connection host, producing
`/{host}/{database}/{schema}/{table}`. -/
theorem route_shape (catalog schema : String) (t : TableNode) (cfg : EndpointConfig)
    (h : cfg ∈ configsForTable catalog schema t) :
    cfg.route = "/" ++ catalog ++ "/" ++ schema ++ "/" ++ t.name ∧
    (∀ host database s tb : String,
      autoApiRoute host database s tb =
        "/" ++ host ++ "/" ++ database ++ "/" ++ s ++ "/" ++ tb) := by
  refine ⟨?_, fun _ _ _ _ => rfl⟩
  unfold configsForTable at h
  cases hp : pydantic_from_table t.columns schema t.name with
  | ok m => rw [hp] at h; simp at h; rw [h]; rfl
  | error e => rw [hp] at h; simp at h

/-- Witness for `route_shape` at a concrete discovered table. -/
theorem route_shape_witness :
    (⟨"/c/s/t", ⟨"s_t", [⟨"id", ApiType.integer, true, true⟩]⟩⟩ : EndpointConfig).route =
      "/" ++ "c" ++ "/" ++ "s" ++ "/" ++ "t" ∧
    (∀ host database s tb : String,
      autoApiRoute host database s tb =
        "/" ++ host ++ "/" ++ database ++ "/" ++ s ++ "/" ++ tb) :=
  route_shape "c" "s" ⟨"t", .ok [⟨"id", NativeType.integer "INTEGER", false, false⟩]⟩
    ⟨"/c/s/t", ⟨"s_t", [⟨"id", ApiType.integer, true, true⟩]⟩⟩ (by decide)

/-- Claim C8 counterexample: two catalogs that each contain schema "s" with
table "t" produce two distinct endpoint configs (different routes) whose
response-schema names are both "s_t" — name uniqueness fails across a single
data source. -/
theorem model_name_collision_counterexample :
    okValue (generateEndpointConfigs ⟨.ok [
      ⟨"c1", .ok [⟨"s", .ok [⟨"t",
        .ok [⟨"id", NativeType.integer "INTEGER", false, false⟩]⟩]⟩]⟩,
      ⟨"c2", .ok [⟨"s", .ok [⟨"t",
        .ok [⟨"id", NativeType.integer "INTEGER", false, false⟩]⟩]⟩]⟩]⟩) =
      some [⟨"/c1/s/t", ⟨"s_t", [⟨"id", ApiType.integer, true, true⟩]⟩⟩,
            ⟨"/c2/s/t", ⟨"s_t", [⟨"id", ApiType.integer, true, true⟩]⟩⟩] ∧
    (⟨"/c1/s/t", ⟨"s_t", [⟨"id", ApiType.integer, true, true⟩]⟩⟩ : EndpointConfig) ≠
      ⟨"/c2/s/t", ⟨"s_t", [⟨"id", ApiType.integer, true, true⟩]⟩⟩ ∧
    (⟨"s_t", [⟨"id", ApiType.integer, true, true⟩]⟩ : PydanticModel).name =
      (⟨"s_t", [⟨"id", ApiType.integer, true, true⟩]⟩ : PydanticModel).name := by decide

/-- Claim C8 (amended): every synthesized response schema is named
`schema_name + "_" + table_name`; this does not make names unique across a
data source — distinct endpoints from different catalogs sharing schema and
table names share a response-schema name. -/
theorem model_name_formula (colsListing : Except AutoApiError (List ColumnDescriptor))
    (s t : String) (m : PydanticModel)
    (h : pydantic_from_table colsListing s t = .ok m) : m.name = s ++ "_" ++ t := by
  unfold pydantic_from_table at h
  split at h
  · simp at h
  · split at h
    · simp at h
    · injection h with h2
      subst h2
      rfl

/-- Witness for `model_name_formula` at a concrete table. -/
theorem model_name_formula_witness :
    (⟨"s_t", [⟨"id", ApiType.integer, true, true⟩]⟩ : PydanticModel).name =
      "s" ++ "_" ++ "t" :=
  model_name_formula (.ok [⟨"id", NativeType.integer "INTEGER", false, false⟩]) "s" "t"
    ⟨"s_t", [⟨"id", ApiType.integer, true, true⟩]⟩ (by decide)

/-- Claim C9: discovery is deterministic — for one fixed reported hierarchy,
two discovery passes produce identical ordered route sequences and identical
field orderings in every response schema (the build is a pure function of the
reported hierarchy, with no other input). -/
theorem route_determinism (ds1 ds2 : DataSource) (h : ds1 = ds2) :
    (okValue (generateEndpointConfigs ds1)).map (fun cs => cs.map EndpointConfig.route) =
      (okValue (generateEndpointConfigs ds2)).map (fun cs => cs.map EndpointConfig.route) ∧
    (okValue (generateEndpointConfigs ds1)).map
        (fun cs => cs.map (fun c => c.pydantic_model.fields.map PydanticField.name)) =
      (okValue (generateEndpointConfigs ds2)).map
        (fun cs => cs.map (fun c => c.pydantic_model.fields.map PydanticField.name)) := by
  subst h
  exact ⟨rfl, rfl⟩

/-- Witness for `route_determinism`: a one-table hierarchy, same pass twice,
with the common value computed explicitly. -/
theorem route_determinism_witness :
    (okValue (generateEndpointConfigs ⟨.ok [⟨"c", .ok [⟨"s", .ok [⟨"t",
        .ok [⟨"id", NativeType.integer "INTEGER", false, false⟩,
             ⟨"name", NativeType.string "VARCHAR", true, false⟩]⟩]⟩]⟩]⟩)).map
      (fun cs => cs.map EndpointConfig.route) = some ["/c/s/t"] ∧
    (okValue (generateEndpointConfigs ⟨.ok [⟨"c", .ok [⟨"s", .ok [⟨"t",
        .ok [⟨"id", NativeType.integer "INTEGER", false, false⟩,
             ⟨"name", NativeType.string "VARCHAR", true, false⟩]⟩]⟩]⟩]⟩)).map
      (fun cs => cs.map (fun c => c.pydantic_model.fields.map PydanticField.name)) =
      some [["id", "name"]] := by
  have h := route_determinism
    ⟨.ok [⟨"c", .ok [⟨"s", .ok [⟨"t",
      .ok [⟨"id", NativeType.integer "INTEGER", false, false⟩,
           ⟨"name", NativeType.string "VARCHAR", true, false⟩]⟩]⟩]⟩]⟩
    ⟨.ok [⟨"c", .ok [⟨"s", .ok [⟨"t",
      .ok [⟨"id", NativeType.integer "INTEGER", false, false⟩,
           ⟨"name", NativeType.string "VARCHAR", true, false⟩]⟩]⟩]⟩]⟩ rfl
  exact ⟨h.1.trans (by decide), h.2.trans (by decide)⟩

/-- Helper: the method loop of `generate_api_path_functions` skips precisely
the methods outside `HTTPMethod.get_values()`. -/
theorem registerMethods_filter (cfg : EndpointConfig) (ms : List String) :
    ∀ acc, registerMethods cfg ms acc =
      registerMethods cfg (ms.filter (fun m => HTTPMethod.get_values.contains m)) acc := by
  induction ms with
  | nil => intro acc; rfl
  | cons m ms ih =>
    intro acc
    by_cases hm : m ∈ HTTPMethod.get_values
    · simp [registerMethods, List.filter_cons, hm, ih]
    · simp [registerMethods, List.filter_cons, hm, ih]

/-- Helper: the config loop preserves the method filtering. -/
theorem registerConfigs_filter (cfgs : List EndpointConfig) (ms : List String) :
    ∀ acc, registerConfigs cfgs ms acc =
      registerConfigs cfgs (ms.filter (fun m => HTTPMethod.get_values.contains m)) acc := by
  induction cfgs with
  | nil => intro acc; rfl
  | cons cfg cfgs ih =>
    intro acc
    simp only [registerConfigs]
    rw [registerMethods_filter cfg ms acc]
    exact ih _

/-- Claim C10: for every endpoint configuration and every http_method whose
uppercase value is not "GET", `generate_api_path_function` registers no route
and returns None without raising; and `generate_api_path_functions` skips any
method outside the supported set {"GET"}, so only GET handlers are ever
registered. -/
theorem only_get_registered :
    (∀ (cfg : EndpointConfig) (m : String), strUpper m ≠ "GET" →
      generate_api_path_function cfg m = (none, [])) ∧
    (∀ (cfgs : List EndpointConfig) (ms : List String),
      generate_api_path_functions cfgs ms =
        generate_api_path_functions cfgs
          (ms.filter (fun m => HTTPMethod.get_values.contains m))) := by
  constructor
  · intro cfg m hm
    simp [generate_api_path_function, HTTPMethod.value, hm]
  · intro cfgs ms
    unfold generate_api_path_functions
    exact registerConfigs_filter cfgs ms ([], [])

/-- Witness for `only_get_registered`: "POST" registers nothing and returns
None; a ["POST", "GET"] method list produces the same registrations as
["GET"] alone. -/
theorem only_get_registered_witness :
    generate_api_path_function ⟨"/c/s/t", ⟨"s_t", []⟩⟩ "POST" = (none, []) ∧
    generate_api_path_functions [⟨"/c/s/t", ⟨"s_t", []⟩⟩] ["POST", "GET"] =
      generate_api_path_functions [⟨"/c/s/t", ⟨"s_t", []⟩⟩] ["GET"] := by
  have h := only_get_registered
  refine ⟨h.1 ⟨"/c/s/t", ⟨"s_t", []⟩⟩ "POST" (by decide), ?_⟩
  exact (h.2 [⟨"/c/s/t", ⟨"s_t", []⟩⟩] ["POST", "GET"]).trans (by rfl)
